import Mathlib

/-!
Verification of the em-tools-mcp-server session and credential layer.

The JavaScript source (src/index.js, the stdio server variant, and the
service variants) is shallowly embedded.  The process-wide `sessionStore`
and `transports` objects become functions from string keys to optional
values; each tool/resource handler becomes a pure function of the store and
its input that returns the protocol result together with the list of
adapter calls it performed; the backend adapters are abstracted as records
of result functions (one outbound call per invocation, as in the code).

Two JavaScript details are modelled explicitly throughout:
* `obj[k]` with an `undefined` key coerces the key to the string
  "undefined" (`sidKey` reproduces `sessionStore[context?.sessionId]`);
* string truthiness (`undefined` and `""` are falsy) wherever the code
  branches on a string (`if (taskId)`, `if (status)`, ...).
-/

/-- Credential bundle stored by the `get_login_jira` tool:
`{ username, apiToken, host, session }` (src/index.js line 35). -/
structure JiraCreds where
  username : String
  apiToken : String
  host : String
  session : String
deriving DecidableEq, Repr

/-- Credential bundle stored by the `get_login_calendar` tool:
`{ clientId, clientSecret, redirectUri, refreshToken, session }`
(src/index.js line 55); `refreshToken` is optional. -/
structure CalendarCreds where
  clientId : String
  clientSecret : String
  redirectUri : String
  refreshToken : Option String
  session : String
deriving DecidableEq, Repr

/-- Credential bundle stored by the `get_login_notion` tool:
`{ apiKey, session }` (src/index.js line 72). -/
structure NotionCreds where
  apiKey : String
  session : String
deriving DecidableEq, Repr

/-- One session's entry in `sessionStore`: a plain object whose `jira`,
`calendar` and `notion` properties are set by the respective login tools. -/
structure SessionCreds where
  jira : Option JiraCreds := none
  calendar : Option CalendarCreds := none
  notion : Option NotionCreds := none
deriving DecidableEq, Repr

/-- The process-wide `sessionStore` object (src/index.js line 16), keyed by
session id string. -/
abbrev SessionStore := String → Option SessionCreds

/-- The entry `sessionStore[k]` starts absent for every key. -/
def emptySessionStore : SessionStore := fun _ => none

/-- The key JavaScript uses for `sessionStore[context?.sessionId]`: an
`undefined` session id is coerced to the property name "undefined". -/
def sidKey : Option String → String
  | some s => s
  | none => "undefined"

/-- Assignment `sessionStore[k] = v` (or `delete` when `v` is `none`). -/
def storeUpdate (store : SessionStore) (k : String) (v : Option SessionCreds) :
    SessionStore :=
  fun x => if x = k then v else store x

/-- The `{}` object created by `sessionStore[sid] = sessionStore[sid] || {}`. -/
def emptySessionCreds : SessionCreds := {}

/-- The base64 alphabet used by `Buffer.toString('base64')`. -/
def b64Alphabet : List Char :=
  "ABCDEFGHIJKLMNOPQRSTUVWXYZabcdefghijklmnopqrstuvwxyz0123456789+/".toList

/-- Character `n` of the base64 alphabet. -/
def b64Char (n : Nat) : Char := b64Alphabet.getD n '='

/-- Base64 of a byte list: 3 input bytes per 4 output characters, '='
padding, as `Buffer.from(s).toString('base64')` produces. -/
def b64Bytes : List Nat → String
  | [] => ""
  | [b0] =>
      String.mk [b64Char (b0 / 4), b64Char (b0 % 4 * 16), '=', '=']
  | [b0, b1] =>
      String.mk [b64Char (b0 / 4), b64Char (b0 % 4 * 16 + b1 / 16),
        b64Char (b1 % 16 * 4), '=']
  | b0 :: b1 :: b2 :: rest =>
      String.mk [b64Char (b0 / 4), b64Char (b0 % 4 * 16 + b1 / 16),
        b64Char (b1 % 16 * 4 + b2 / 64), b64Char (b2 % 64)] ++ b64Bytes rest

/-- Base64 of the UTF-8 bytes of a string. -/
def b64 (s : String) : String :=
  b64Bytes (s.toUTF8.data.toList.map UInt8.toNat)

/-- The token computed by `get_login_jira`:
base64 of `` `${username}:${apiToken}:${host}` `` (src/index.js line 33). -/
def jiraSessionToken (username apiToken host : String) : String :=
  b64 (username ++ ":" ++ apiToken ++ ":" ++ host)

/-- The token computed by `get_login_calendar`: base64 of
`` `${clientId}:${clientSecret}:${redirectUri}:${refreshToken || ''}` ``
(src/index.js line 53). -/
def calendarSessionToken (clientId clientSecret redirectUri : String)
    (refreshToken : Option String) : String :=
  b64 (clientId ++ ":" ++ clientSecret ++ ":" ++ redirectUri ++ ":" ++
    refreshToken.getD "")

/-- The token computed by `get_login_notion`: base64 of `` `${apiKey}` ``
(src/index.js line 70). -/
def notionSessionToken (apiKey : String) : String := b64 apiKey

/-- Response of every login tool: `{ session }` per the output schema
`z.object({ session: z.string() })`. -/
structure LoginResponse where
  session : String
deriving DecidableEq, Repr

/-- Handler of `get_login_jira` (src/index.js lines 32-37): ensure the
session's entry exists, overwrite its `jira` bundle whole, return the token. -/
def loginJiraHandler (store : SessionStore) (sid : Option String)
    (username apiToken host : String) : SessionStore × LoginResponse :=
  let session := jiraSessionToken username apiToken host
  let entry := (store (sidKey sid)).getD emptySessionCreds
  (storeUpdate store (sidKey sid)
    (some { entry with jira := some ⟨username, apiToken, host, session⟩ }),
   ⟨session⟩)

/-- Handler of `get_login_calendar` (src/index.js lines 52-57). -/
def loginCalendarHandler (store : SessionStore) (sid : Option String)
    (clientId clientSecret redirectUri : String) (refreshToken : Option String) :
    SessionStore × LoginResponse :=
  let session := calendarSessionToken clientId clientSecret redirectUri refreshToken
  let entry := (store (sidKey sid)).getD emptySessionCreds
  let bundle : CalendarCreds :=
    ⟨clientId, clientSecret, redirectUri, refreshToken, session⟩
  (storeUpdate store (sidKey sid) (some { entry with calendar := some bundle }),
   ⟨session⟩)

/-- Handler of `get_login_notion` (src/index.js lines 69-74). -/
def loginNotionHandler (store : SessionStore) (sid : Option String)
    (apiKey : String) : SessionStore × LoginResponse :=
  let session := notionSessionToken apiKey
  let entry := (store (sidKey sid)).getD emptySessionCreds
  (storeUpdate store (sidKey sid)
    (some { entry with notion := some ⟨apiKey, session⟩ }),
   ⟨session⟩)

/-- Claim C3: login is last-write-wins overwrite.  For every session, every
integration, and bundles A then B, logging in with A and then with B leaves
the credential store for that (session, integration) pair holding exactly
the record built from B's fields (with B's derived token), with no field of
A merged in. -/
theorem c3_login_last_write_wins (store : SessionStore) (sid : Option String)
    (uA tA hA uB tB hB cidA csA ruA cidB csB ruB kA kB : String)
    (rtA rtB : Option String) :
    (((loginJiraHandler (loginJiraHandler store sid uA tA hA).1 sid uB tB hB).1
        (sidKey sid)).bind SessionCreds.jira
      = some ⟨uB, tB, hB, jiraSessionToken uB tB hB⟩) ∧
    (((loginCalendarHandler (loginCalendarHandler store sid cidA csA ruA rtA).1
        sid cidB csB ruB rtB).1 (sidKey sid)).bind SessionCreds.calendar
      = some ⟨cidB, csB, ruB, rtB, calendarSessionToken cidB csB ruB rtB⟩) ∧
    (((loginNotionHandler (loginNotionHandler store sid kA).1 sid kB).1
        (sidKey sid)).bind SessionCreds.notion
      = some ⟨kB, notionSessionToken kB⟩) := by
  refine ⟨?_, ?_, ?_⟩ <;>
    simp [loginJiraHandler, loginCalendarHandler, loginNotionHandler, storeUpdate]

/-- Claim C9: every successful login tool invocation returns `{ session }`
whose token is derived deterministically from the supplied bundle fields
(base64 of their concatenation): it equals the token function of the bundle
fields alone, so two calls with equal bundle fields — on any sessions and
any store contents — return the same value. -/
theorem c9_login_token_deterministic
    (store1 store2 : SessionStore) (sid1 sid2 : Option String)
    (u t h cid cs ru k : String) (rt : Option String) :
    (loginJiraHandler store1 sid1 u t h).2 = ⟨jiraSessionToken u t h⟩ ∧
    (loginJiraHandler store1 sid1 u t h).2 = (loginJiraHandler store2 sid2 u t h).2 ∧
    (loginCalendarHandler store1 sid1 cid cs ru rt).2
      = ⟨calendarSessionToken cid cs ru rt⟩ ∧
    (loginCalendarHandler store1 sid1 cid cs ru rt).2
      = (loginCalendarHandler store2 sid2 cid cs ru rt).2 ∧
    (loginNotionHandler store1 sid1 k).2 = ⟨notionSessionToken k⟩ ∧
    (loginNotionHandler store1 sid1 k).2 = (loginNotionHandler store2 sid2 k).2 :=
  ⟨rfl, rfl, rfl, rfl, rfl, rfl⟩

/-- Error object thrown by handlers: `{ code, message }` (src/index.js
lines 87, 120, 139, 155, 181, 197, 221). -/
structure MCPError where
  code : Int
  message : String
deriving DecidableEq, Repr

/-- The error thrown by every Jira handler when the session has no jira
bundle (src/index.js line 87). -/
def jiraLoginRequired : MCPError :=
  ⟨-32001, "Please login to Jira first using the get_login_jira tool."⟩

/-- The error thrown by every Calendar handler when the session has no
calendar bundle (src/index.js line 155). -/
def calendarLoginRequired : MCPError :=
  ⟨-32002, "Please login to Calendar first using the get_login_calendar tool."⟩

/-- The error thrown by every Notion handler when the session has no notion
bundle (src/index.js line 197). -/
def notionLoginRequired : MCPError :=
  ⟨-32003, "Please login to Notion first using the get_login_notion tool."⟩

/-- Input of the `create-jira-task` tool (src/index.js lines 103-111). -/
structure CreateJiraTaskInput where
  project_key : String
  summary : String
  description : Option String := none
  issue_type : String := "Task"
  assignee : Option String := none
  priority : Option String := none
  due_date : Option String := none
deriving DecidableEq, Repr

/-- One adapter interaction performed by a handler in src/index.js: the
construction of a service object from a credential bundle, or one method
call on it.  Handlers are modelled as returning the list of these in order. -/
inductive AdapterCall
  | jiraConstruct (creds : JiraCreds)
  | jiraGetTask (creds : JiraCreds) (taskId : String)
  | jiraGetTasks (creds : JiraCreds)
  | jiraCreateTask (creds : JiraCreds) (params : CreateJiraTaskInput)
  | jiraUpdateTask (creds : JiraCreds) (taskKey : String)
      (summary description status : Option String)
  | calConstruct (creds : CalendarCreds)
  | calGetEvent (creds : CalendarCreds) (eventId : String)
  | calGetEvents (creds : CalendarCreds)
  | calCreateMeeting (creds : CalendarCreds) (summary : String)
      (description : Option String) (startDateTime endDateTime : String)
      (attendees : Option (List String))
  | notionConstruct (creds : NotionCreds)
  | notionGetDoc (creds : NotionCreds) (docId : String)
  | notionSearchDocs (creds : NotionCreds)
  | notionCreateDoc (creds : NotionCreds) (title parentId : String)
      (content : Option String)
deriving DecidableEq, Repr

/-- Abstract backend: the value each awaited service method resolves to,
as a function of the credential bundle the service was constructed from and
the call's arguments.  The `String` results stand for the normalized data
the services return (the handlers JSON-stringify or pass them through). -/
structure Backend where
  jiraGetTask : JiraCreds → String → String
  jiraGetTasks : JiraCreds → String
  jiraCreateTask : JiraCreds → CreateJiraTaskInput → String
  jiraUpdateTask : JiraCreds → String → Option String → Option String →
    Option String → String
  calGetEvent : CalendarCreds → String → String
  calGetEvents : CalendarCreds → String
  calCreateMeeting : CalendarCreds → String → Option String → String → String →
    Option (List String) → String
  notionGetDoc : NotionCreds → String → String
  notionSearchDocs : NotionCreds → String
  notionCreateDoc : NotionCreds → String → String → Option String → String

/-- One element of a resource response's `contents` array:
`{ uri: uri.href, text: JSON.stringify(...) }`. -/
structure ResourceContent where
  uri : String
  text : String
deriving DecidableEq, Repr

/-- A resource response: `{ contents: [...] }`. -/
structure ResourceResult where
  contents : List ResourceContent
deriving DecidableEq, Repr

/-- JavaScript truthiness of an optional string: `undefined` and `""` are
falsy, every other string is truthy. -/
def truthy : Option String → Bool
  | some s => s != ""
  | none => false

/-- Body of the `jira-tasks` resource handler (src/index.js lines 85-96)
as a function of the resolved `sessionStore[sid]?.jira` value: absent
credentials throw the login-required error before any service is built;
otherwise a `JiraService` is constructed and `getTask`/`getTasks` is chosen
by the truthiness of the `{taskId}` template variable. -/
def jiraTasksCore (be : Backend) (creds? : Option JiraCreds) (uri : String)
    (taskId : Option String) : Except MCPError ResourceResult × List AdapterCall :=
  match creds? with
  | none => (.error jiraLoginRequired, [])
  | some creds =>
    if truthy taskId then
      let tid := taskId.getD ""
      (.ok ⟨[⟨uri, be.jiraGetTask creds tid⟩]⟩,
       [.jiraConstruct creds, .jiraGetTask creds tid])
    else
      (.ok ⟨[⟨uri, be.jiraGetTasks creds⟩]⟩,
       [.jiraConstruct creds, .jiraGetTasks creds])

/-- The `jira-tasks` resource handler (src/index.js lines 85-96). -/
def jiraTasksHandler (be : Backend) (store : SessionStore) (sid : Option String)
    (uri : String) (taskId : Option String) :
    Except MCPError ResourceResult × List AdapterCall :=
  jiraTasksCore be ((store (sidKey sid)).bind SessionCreds.jira) uri taskId

/-- Body of the `create-jira-task` tool handler (src/index.js lines 118-123). -/
def createJiraTaskCore (be : Backend) (creds? : Option JiraCreds)
    (params : CreateJiraTaskInput) : Except MCPError String × List AdapterCall :=
  match creds? with
  | none => (.error jiraLoginRequired, [])
  | some creds =>
    (.ok (be.jiraCreateTask creds params),
     [.jiraConstruct creds, .jiraCreateTask creds params])

/-- The `create-jira-task` tool handler (src/index.js lines 118-123). -/
def createJiraTaskHandler (be : Backend) (store : SessionStore)
    (sid : Option String) (params : CreateJiraTaskInput) :
    Except MCPError String × List AdapterCall :=
  createJiraTaskCore be ((store (sidKey sid)).bind SessionCreds.jira) params

/-- Body of the `update-jira-task` tool handler (src/index.js lines 137-142). -/
def updateJiraTaskCore (be : Backend) (creds? : Option JiraCreds)
    (taskKey : String) (summary description status : Option String) :
    Except MCPError String × List AdapterCall :=
  match creds? with
  | none => (.error jiraLoginRequired, [])
  | some creds =>
    (.ok (be.jiraUpdateTask creds taskKey summary description status),
     [.jiraConstruct creds, .jiraUpdateTask creds taskKey summary description status])

/-- The `update-jira-task` tool handler (src/index.js lines 137-142). -/
def updateJiraTaskHandler (be : Backend) (store : SessionStore)
    (sid : Option String) (taskKey : String)
    (summary description status : Option String) :
    Except MCPError String × List AdapterCall :=
  updateJiraTaskCore be ((store (sidKey sid)).bind SessionCreds.jira)
    taskKey summary description status

/-- Body of the `calendar-events` resource handler (src/index.js
lines 153-164). -/
def calendarEventsCore (be : Backend) (creds? : Option CalendarCreds)
    (uri : String) (eventId : Option String) :
    Except MCPError ResourceResult × List AdapterCall :=
  match creds? with
  | none => (.error calendarLoginRequired, [])
  | some creds =>
    if truthy eventId then
      let eid := eventId.getD ""
      (.ok ⟨[⟨uri, be.calGetEvent creds eid⟩]⟩,
       [.calConstruct creds, .calGetEvent creds eid])
    else
      (.ok ⟨[⟨uri, be.calGetEvents creds⟩]⟩,
       [.calConstruct creds, .calGetEvents creds])

/-- The `calendar-events` resource handler (src/index.js lines 153-164). -/
def calendarEventsHandler (be : Backend) (store : SessionStore)
    (sid : Option String) (uri : String) (eventId : Option String) :
    Except MCPError ResourceResult × List AdapterCall :=
  calendarEventsCore be ((store (sidKey sid)).bind SessionCreds.calendar) uri eventId

/-- Body of the `create-calendar-meeting` tool handler (src/index.js
lines 179-184). -/
def createCalendarMeetingCore (be : Backend) (creds? : Option CalendarCreds)
    (summary : String) (description : Option String)
    (startDateTime endDateTime : String) (attendees : Option (List String)) :
    Except MCPError String × List AdapterCall :=
  match creds? with
  | none => (.error calendarLoginRequired, [])
  | some creds =>
    (.ok (be.calCreateMeeting creds summary description startDateTime
        endDateTime attendees),
     [.calConstruct creds,
      .calCreateMeeting creds summary description startDateTime endDateTime attendees])

/-- The `create-calendar-meeting` tool handler (src/index.js lines 179-184). -/
def createCalendarMeetingHandler (be : Backend) (store : SessionStore)
    (sid : Option String) (summary : String) (description : Option String)
    (startDateTime endDateTime : String) (attendees : Option (List String)) :
    Except MCPError String × List AdapterCall :=
  createCalendarMeetingCore be ((store (sidKey sid)).bind SessionCreds.calendar)
    summary description startDateTime endDateTime attendees

/-- Body of the `notion-documents` resource handler (src/index.js
lines 195-206). -/
def notionDocumentsCore (be : Backend) (creds? : Option NotionCreds)
    (uri : String) (docId : Option String) :
    Except MCPError ResourceResult × List AdapterCall :=
  match creds? with
  | none => (.error notionLoginRequired, [])
  | some creds =>
    if truthy docId then
      let did := docId.getD ""
      (.ok ⟨[⟨uri, be.notionGetDoc creds did⟩]⟩,
       [.notionConstruct creds, .notionGetDoc creds did])
    else
      (.ok ⟨[⟨uri, be.notionSearchDocs creds⟩]⟩,
       [.notionConstruct creds, .notionSearchDocs creds])

/-- The `notion-documents` resource handler (src/index.js lines 195-206). -/
def notionDocumentsHandler (be : Backend) (store : SessionStore)
    (sid : Option String) (uri : String) (docId : Option String) :
    Except MCPError ResourceResult × List AdapterCall :=
  notionDocumentsCore be ((store (sidKey sid)).bind SessionCreds.notion) uri docId

/-- Body of the `create-notion-document` tool handler (src/index.js
lines 219-224). -/
def createNotionDocumentCore (be : Backend) (creds? : Option NotionCreds)
    (title parentId : String) (content : Option String) :
    Except MCPError String × List AdapterCall :=
  match creds? with
  | none => (.error notionLoginRequired, [])
  | some creds =>
    (.ok (be.notionCreateDoc creds title parentId content),
     [.notionConstruct creds, .notionCreateDoc creds title parentId content])

/-- The `create-notion-document` tool handler (src/index.js lines 219-224). -/
def createNotionDocumentHandler (be : Backend) (store : SessionStore)
    (sid : Option String) (title parentId : String) (content : Option String) :
    Except MCPError String × List AdapterCall :=
  createNotionDocumentCore be ((store (sidKey sid)).bind SessionCreds.notion)
    title parentId content

/-- A concrete backend instance used by witnesses. -/
def backendW : Backend where
  jiraGetTask := fun _ tid => "jira-task-" ++ tid
  jiraGetTasks := fun _ => "jira-task-list"
  jiraCreateTask := fun _ p => "created-" ++ p.summary
  jiraUpdateTask := fun _ k _ _ _ => "updated-" ++ k
  calGetEvent := fun _ eid => "cal-event-" ++ eid
  calGetEvents := fun _ => "cal-event-list"
  calCreateMeeting := fun _ s _ _ _ _ => "meeting-" ++ s
  notionGetDoc := fun _ did => "notion-doc-" ++ did
  notionSearchDocs := fun _ => "notion-doc-list"
  notionCreateDoc := fun _ t _ _ => "doc-" ++ t

/-- A concrete create-jira-task input used by witnesses. -/
def cjpW : CreateJiraTaskInput := { project_key := "OPS", summary := "Fix build" }

/-- Concrete jira credentials used by witnesses. -/
def jcW : JiraCreds := ⟨"u", "t", "h", jiraSessionToken "u" "t" "h"⟩

/-- Concrete calendar credentials used by witnesses. -/
def ccW : CalendarCreds := ⟨"ci", "cs", "ru", none, calendarSessionToken "ci" "cs" "ru" none⟩

/-- Concrete notion credentials used by witnesses. -/
def ncW : NotionCreds := ⟨"k", notionSessionToken "k"⟩

/-- A concrete store with all three bundles under session id "s1". -/
def storeAllW : SessionStore :=
  fun k => if k = "s1" then
    some { jira := some jcW, calendar := some ccW, notion := some ncW }
  else none

/-- Claim C1: for every session and every integration, invoking any of the
seven non-login tool/resource handlers for that integration while the
session has no credential bundle for it returns exactly the
integration-specific login-required error (code -32001, -32002 or -32003,
with the fixed message naming the login tool) and performs no adapter
interaction at all: the returned call trace is empty, so no service object
is constructed and no service method is invoked. -/
theorem c1_login_required_gate (be : Backend) (store : SessionStore)
    (sid : Option String) (uri : String) (tid eid did : Option String)
    (cjp : CreateJiraTaskInput) (tk : String) (us ud ust : Option String)
    (ms : String) (md : Option String) (sdt edt : String)
    (att : Option (List String)) (nt np : String) (ncon : Option String) :
    ((store (sidKey sid)).bind SessionCreds.jira = none →
      jiraTasksHandler be store sid uri tid = (.error jiraLoginRequired, []) ∧
      createJiraTaskHandler be store sid cjp = (.error jiraLoginRequired, []) ∧
      updateJiraTaskHandler be store sid tk us ud ust
        = (.error jiraLoginRequired, [])) ∧
    ((store (sidKey sid)).bind SessionCreds.calendar = none →
      calendarEventsHandler be store sid uri eid
        = (.error calendarLoginRequired, []) ∧
      createCalendarMeetingHandler be store sid ms md sdt edt att
        = (.error calendarLoginRequired, [])) ∧
    ((store (sidKey sid)).bind SessionCreds.notion = none →
      notionDocumentsHandler be store sid uri did
        = (.error notionLoginRequired, []) ∧
      createNotionDocumentHandler be store sid nt np ncon
        = (.error notionLoginRequired, [])) := by
  refine ⟨fun hj => ?_, fun hc => ?_, fun hn => ?_⟩
  · exact ⟨by simp [jiraTasksHandler, jiraTasksCore, hj],
      by simp [createJiraTaskHandler, createJiraTaskCore, hj],
      by simp [updateJiraTaskHandler, updateJiraTaskCore, hj]⟩
  · exact ⟨by simp [calendarEventsHandler, calendarEventsCore, hc],
      by simp [createCalendarMeetingHandler, createCalendarMeetingCore, hc]⟩
  · exact ⟨by simp [notionDocumentsHandler, notionDocumentsCore, hn],
      by simp [createNotionDocumentHandler, createNotionDocumentCore, hn]⟩

/-- Witness for C1: on the empty store (no login ever happened), each of the
seven handlers returns its integration's login-required error with an empty
adapter-call trace. -/
theorem c1_login_required_gate_witness :
    (jiraTasksHandler backendW emptySessionStore none "res://1" (some "1")
       = (.error jiraLoginRequired, []) ∧
     createJiraTaskHandler backendW emptySessionStore none cjpW
       = (.error jiraLoginRequired, []) ∧
     updateJiraTaskHandler backendW emptySessionStore none "T-1" none none none
       = (.error jiraLoginRequired, [])) ∧
    (calendarEventsHandler backendW emptySessionStore none "res://1" (some "1")
       = (.error calendarLoginRequired, []) ∧
     createCalendarMeetingHandler backendW emptySessionStore none "standup" none
        "2025-01-01T10:00:00Z" "2025-01-01T11:00:00Z" none
       = (.error calendarLoginRequired, [])) ∧
    (notionDocumentsHandler backendW emptySessionStore none "res://1" (some "1")
       = (.error notionLoginRequired, []) ∧
     createNotionDocumentHandler backendW emptySessionStore none "title" "p1" none
       = (.error notionLoginRequired, [])) := by
  have h := c1_login_required_gate backendW emptySessionStore none
    "res://1" (some "1") (some "1") (some "1") cjpW "T-1" none none none
    "standup" none "2025-01-01T10:00:00Z" "2025-01-01T11:00:00Z" none
    "title" "p1" none
  exact ⟨h.1 rfl, h.2.1 rfl, h.2.2 rfl⟩


/-- Claim C2: credential noninterference across sessions.  Every handler
resolves credentials through `sessionStore[context.sessionId]` only, so for
two distinct live sessions s1 and s2, overwriting s2's whole entry with any
value (in particular a different credential bundle) never changes the
response of any of the seven handlers invoked with s1's identifier; and
when s1 holds a jira bundle, each jira handler's first adapter interaction
is the construction of the service from exactly that bundle. -/
theorem c2_session_noninterference (be : Backend) (store : SessionStore)
    (s1 s2 : String) (b : Option SessionCreds) (uri : String)
    (tid eid did : Option String) (cjp : CreateJiraTaskInput) (tk : String)
    (us ud ust : Option String) (ms : String) (md : Option String)
    (sdt edt : String) (att : Option (List String)) (nt np : String)
    (ncon : Option String) (jc : JiraCreds)
    (hne : s1 ≠ s2)
    (hjc : (store s1).bind SessionCreds.jira = some jc) :
    jiraTasksHandler be (storeUpdate store s2 b) (some s1) uri tid
      = jiraTasksHandler be store (some s1) uri tid ∧
    createJiraTaskHandler be (storeUpdate store s2 b) (some s1) cjp
      = createJiraTaskHandler be store (some s1) cjp ∧
    updateJiraTaskHandler be (storeUpdate store s2 b) (some s1) tk us ud ust
      = updateJiraTaskHandler be store (some s1) tk us ud ust ∧
    calendarEventsHandler be (storeUpdate store s2 b) (some s1) uri eid
      = calendarEventsHandler be store (some s1) uri eid ∧
    createCalendarMeetingHandler be (storeUpdate store s2 b) (some s1) ms md sdt edt att
      = createCalendarMeetingHandler be store (some s1) ms md sdt edt att ∧
    notionDocumentsHandler be (storeUpdate store s2 b) (some s1) uri did
      = notionDocumentsHandler be store (some s1) uri did ∧
    createNotionDocumentHandler be (storeUpdate store s2 b) (some s1) nt np ncon
      = createNotionDocumentHandler be store (some s1) nt np ncon ∧
    (jiraTasksHandler be store (some s1) uri tid).2.head?
      = some (.jiraConstruct jc) ∧
    (createJiraTaskHandler be store (some s1) cjp).2.head?
      = some (.jiraConstruct jc) ∧
    (updateJiraTaskHandler be store (some s1) tk us ud ust).2.head?
      = some (.jiraConstruct jc) := by
  have hst : storeUpdate store s2 b s1 = store s1 := by
    simp [storeUpdate, hne]
  refine ⟨?_, ?_, ?_, ?_, ?_, ?_, ?_, ?_, ?_, ?_⟩
  · simp [jiraTasksHandler, sidKey, hst]
  · simp [createJiraTaskHandler, sidKey, hst]
  · simp [updateJiraTaskHandler, sidKey, hst]
  · simp [calendarEventsHandler, sidKey, hst]
  · simp [createCalendarMeetingHandler, sidKey, hst]
  · simp [notionDocumentsHandler, sidKey, hst]
  · simp [createNotionDocumentHandler, sidKey, hst]
  · cases h : truthy tid <;>
      simp [jiraTasksHandler, jiraTasksCore, sidKey, hjc, h]
  · simp [createJiraTaskHandler, createJiraTaskCore, sidKey, hjc]
  · simp [updateJiraTaskHandler, updateJiraTaskCore, sidKey, hjc]

/-- A second jira bundle, different from `jcW`, for the other session in the
noninterference witness. -/
def jcW2 : JiraCreds := ⟨"u2", "t2", "h2", jiraSessionToken "u2" "t2" "h2"⟩

/-- Witness for C2 at sessions "s1" and "s2": overwriting "s2" with a
different jira bundle changes no handler response on "s1", and the jira
handlers on "s1" build their service from "s1"'s own bundle. -/
theorem c2_session_noninterference_witness :
    jiraTasksHandler backendW (storeUpdate storeAllW "s2" (some { jira := some jcW2 }))
        (some "s1") "res://1" (some "1")
      = jiraTasksHandler backendW storeAllW (some "s1") "res://1" (some "1") ∧
    createJiraTaskHandler backendW (storeUpdate storeAllW "s2" (some { jira := some jcW2 }))
        (some "s1") cjpW
      = createJiraTaskHandler backendW storeAllW (some "s1") cjpW ∧
    updateJiraTaskHandler backendW (storeUpdate storeAllW "s2" (some { jira := some jcW2 }))
        (some "s1") "T-1" none none none
      = updateJiraTaskHandler backendW storeAllW (some "s1") "T-1" none none none ∧
    calendarEventsHandler backendW (storeUpdate storeAllW "s2" (some { jira := some jcW2 }))
        (some "s1") "res://1" (some "1")
      = calendarEventsHandler backendW storeAllW (some "s1") "res://1" (some "1") ∧
    createCalendarMeetingHandler backendW (storeUpdate storeAllW "s2" (some { jira := some jcW2 }))
        (some "s1") "standup" none "a" "b" none
      = createCalendarMeetingHandler backendW storeAllW (some "s1") "standup" none "a" "b" none ∧
    notionDocumentsHandler backendW (storeUpdate storeAllW "s2" (some { jira := some jcW2 }))
        (some "s1") "res://1" (some "1")
      = notionDocumentsHandler backendW storeAllW (some "s1") "res://1" (some "1") ∧
    createNotionDocumentHandler backendW (storeUpdate storeAllW "s2" (some { jira := some jcW2 }))
        (some "s1") "title" "p1" none
      = createNotionDocumentHandler backendW storeAllW (some "s1") "title" "p1" none ∧
    (jiraTasksHandler backendW storeAllW (some "s1") "res://1" (some "1")).2.head?
      = some (.jiraConstruct jcW) ∧
    (createJiraTaskHandler backendW storeAllW (some "s1") cjpW).2.head?
      = some (.jiraConstruct jcW) ∧
    (updateJiraTaskHandler backendW storeAllW (some "s1") "T-1" none none none).2.head?
      = some (.jiraConstruct jcW) :=
  c2_session_noninterference backendW storeAllW "s1" "s2" (some { jira := some jcW2 })
    "res://1" (some "1") (some "1") (some "1") cjpW "T-1" none none none
    "standup" none "a" "b" none "title" "p1" none jcW
    (by decide) (by simp [storeAllW])

/-- Abstract backend for the stdio-variant MCPServer (the unnamed
`mcpServer.js` file): its handlers call methods on the `calendarService`
constructed once at startup, with no per-session credentials. -/
structure P1Backend where
  getMeeting : String → String
  getMeetings : String

/-- One service call performed by the stdio-variant calendar handler. -/
inductive P1Call
  | getMeeting (meetingId : String)
  | getMeetings
deriving DecidableEq, Repr

/-- The `calendar-meetings` resource handler of the stdio-variant MCPServer
(unnamed mcpServer.js, lines 102-115): `getMeeting(meetingId)` when the
`{meetingId}` template variable is truthy, `getMeetings()` otherwise. -/
def calendarMeetingsHandlerP1 (be : P1Backend) (uri : String)
    (meetingId : Option String) : ResourceResult × List P1Call :=
  if truthy meetingId then
    let mid := meetingId.getD ""
    (⟨[⟨uri, be.getMeeting mid⟩]⟩, [.getMeeting mid])
  else
    (⟨[⟨uri, be.getMeetings⟩]⟩, [.getMeetings])

/-- Claim C6: resource dispatch by id presence.  For each of the three
resource handlers of src/index.js and the stdio-variant calendar handler,
on a logged-in session: a nonempty `{id}` template value routes to exactly
the single-item adapter operation applied to that id, whose result is
returned as the single content item; an absent id routes to exactly the
collection operation.  (JavaScript `if (taskId)` also treats the empty
string as absent; the id-present case is therefore stated for nonempty
ids.) -/
theorem c6_resource_dispatch (be : Backend) (p1 : P1Backend)
    (store : SessionStore) (sid : Option String) (uri t : String)
    (jc : JiraCreds) (cc : CalendarCreds) (nc : NotionCreds)
    (ht : t ≠ "") :
    ((store (sidKey sid)).bind SessionCreds.jira = some jc →
      jiraTasksHandler be store sid uri (some t)
        = (.ok ⟨[⟨uri, be.jiraGetTask jc t⟩]⟩,
           [.jiraConstruct jc, .jiraGetTask jc t]) ∧
      jiraTasksHandler be store sid uri none
        = (.ok ⟨[⟨uri, be.jiraGetTasks jc⟩]⟩,
           [.jiraConstruct jc, .jiraGetTasks jc])) ∧
    ((store (sidKey sid)).bind SessionCreds.calendar = some cc →
      calendarEventsHandler be store sid uri (some t)
        = (.ok ⟨[⟨uri, be.calGetEvent cc t⟩]⟩,
           [.calConstruct cc, .calGetEvent cc t]) ∧
      calendarEventsHandler be store sid uri none
        = (.ok ⟨[⟨uri, be.calGetEvents cc⟩]⟩,
           [.calConstruct cc, .calGetEvents cc])) ∧
    ((store (sidKey sid)).bind SessionCreds.notion = some nc →
      notionDocumentsHandler be store sid uri (some t)
        = (.ok ⟨[⟨uri, be.notionGetDoc nc t⟩]⟩,
           [.notionConstruct nc, .notionGetDoc nc t]) ∧
      notionDocumentsHandler be store sid uri none
        = (.ok ⟨[⟨uri, be.notionSearchDocs nc⟩]⟩,
           [.notionConstruct nc, .notionSearchDocs nc])) ∧
    (calendarMeetingsHandlerP1 p1 uri (some t)
      = (⟨[⟨uri, p1.getMeeting t⟩]⟩, [.getMeeting t]) ∧
     calendarMeetingsHandlerP1 p1 uri none
      = (⟨[⟨uri, p1.getMeetings⟩]⟩, [.getMeetings])) := by
  refine ⟨fun hj => ?_, fun hc => ?_, fun hn => ?_, ?_⟩
  · exact ⟨by simp [jiraTasksHandler, jiraTasksCore, truthy, hj, ht],
      by simp [jiraTasksHandler, jiraTasksCore, truthy, hj]⟩
  · exact ⟨by simp [calendarEventsHandler, calendarEventsCore, truthy, hc, ht],
      by simp [calendarEventsHandler, calendarEventsCore, truthy, hc]⟩
  · exact ⟨by simp [notionDocumentsHandler, notionDocumentsCore, truthy, hn, ht],
      by simp [notionDocumentsHandler, notionDocumentsCore, truthy, hn]⟩
  · exact ⟨by simp [calendarMeetingsHandlerP1, truthy, ht],
      by simp [calendarMeetingsHandlerP1, truthy]⟩

/-- A concrete stdio-variant backend for the C6 witness. -/
def p1BackendW : P1Backend where
  getMeeting := fun mid => "meeting-" ++ mid
  getMeetings := "meeting-list"

/-- Witness for C6 on session "s1" of `storeAllW` with id "42": each
handler returns the single item for the present id and the collection when
the id is absent. -/
theorem c6_resource_dispatch_witness :
    (jiraTasksHandler backendW storeAllW (some "s1") "res://x" (some "42")
       = (.ok ⟨[⟨"res://x", backendW.jiraGetTask jcW "42"⟩]⟩,
          [.jiraConstruct jcW, .jiraGetTask jcW "42"]) ∧
     jiraTasksHandler backendW storeAllW (some "s1") "res://x" none
       = (.ok ⟨[⟨"res://x", backendW.jiraGetTasks jcW⟩]⟩,
          [.jiraConstruct jcW, .jiraGetTasks jcW])) ∧
    (calendarEventsHandler backendW storeAllW (some "s1") "res://x" (some "42")
       = (.ok ⟨[⟨"res://x", backendW.calGetEvent ccW "42"⟩]⟩,
          [.calConstruct ccW, .calGetEvent ccW "42"]) ∧
     calendarEventsHandler backendW storeAllW (some "s1") "res://x" none
       = (.ok ⟨[⟨"res://x", backendW.calGetEvents ccW⟩]⟩,
          [.calConstruct ccW, .calGetEvents ccW])) ∧
    (notionDocumentsHandler backendW storeAllW (some "s1") "res://x" (some "42")
       = (.ok ⟨[⟨"res://x", backendW.notionGetDoc ncW "42"⟩]⟩,
          [.notionConstruct ncW, .notionGetDoc ncW "42"]) ∧
     notionDocumentsHandler backendW storeAllW (some "s1") "res://x" none
       = (.ok ⟨[⟨"res://x", backendW.notionSearchDocs ncW⟩]⟩,
          [.notionConstruct ncW, .notionSearchDocs ncW])) ∧
    (calendarMeetingsHandlerP1 p1BackendW "res://x" (some "42")
       = (⟨[⟨"res://x", p1BackendW.getMeeting "42"⟩]⟩, [.getMeeting "42"]) ∧
     calendarMeetingsHandlerP1 p1BackendW "res://x" none
       = (⟨[⟨"res://x", p1BackendW.getMeetings⟩]⟩, [.getMeetings])) := by
  have h := c6_resource_dispatch backendW p1BackendW storeAllW (some "s1")
    "res://x" "42" jcW ccW ncW (by decide)
  exact ⟨h.1 (by simp [storeAllW, sidKey]), h.2.1 (by simp [storeAllW, sidKey]),
    h.2.2.1 (by simp [storeAllW, sidKey]), h.2.2.2⟩

/-- The two process-wide tables of the HTTP binding (src/index.js
lines 15-16): `transports`, keyed by session id (transport objects are
opaque handles, modelled as numbers), and `sessionStore`. -/
structure ServerState where
  transports : String → Option Nat
  sessionStore : String → Option SessionCreds

/-- Both tables empty, as at process start. -/
def emptyServerState : ServerState := ⟨fun _ => none, fun _ => none⟩

/-- Assignment `transports[k] = v` (or `delete` when `v` is `none`). -/
def transportsUpdate (m : String → Option Nat) (k : String) (v : Option Nat) :
    String → Option Nat :=
  fun x => if x = k then v else m x

/-- The `transport.onclose` handler (src/index.js lines 241-246): when the
transport has a truthy `sessionId`, delete both `transports[sessionId]` and
`sessionStore[sessionId]`. -/
def onTransportClose (st : ServerState) (transportSessionId : Option String) :
    ServerState :=
  if truthy transportSessionId then
    let sid := transportSessionId.getD ""
    ⟨transportsUpdate st.transports sid none, storeUpdate st.sessionStore sid none⟩
  else st

/-- Claim C4: session teardown is complete.  When a transport whose session
identifier is a (nonempty) string signals close, both the transport-table
entry and the whole credential-store entry for that identifier are deleted:
afterwards a lookup by that identifier fails in both tables, whatever was
stored there for any integration. -/
theorem c4_teardown_complete (st : ServerState) (sid : String) (h : sid ≠ "") :
    (onTransportClose st (some sid)).transports sid = none ∧
    (onTransportClose st (some sid)).sessionStore sid = none := by
  constructor <;>
    simp [onTransportClose, truthy, transportsUpdate, storeUpdate, h]

/-- A populated server state for the C4 witness: session "abc" is live with
a transport and all three credential bundles. -/
def serverStateW : ServerState :=
  ⟨fun k => if k = "abc" then some 7 else none,
   fun k => if k = "abc" then
     some { jira := some jcW, calendar := some ccW, notion := some ncW }
   else none⟩

/-- Witness for C4: closing session "abc"'s transport removes both its
transport entry and its whole credential entry. -/
theorem c4_teardown_complete_witness :
    (onTransportClose serverStateW (some "abc")).transports "abc" = none ∧
    (onTransportClose serverStateW (some "abc")).sessionStore "abc" = none :=
  c4_teardown_complete serverStateW "abc" (by decide)

/-- Body of an HTTP response of the /mcp routes.  `jsonEnvelope code msg`
stands for the fixed JSON object
`(jsonrpc: "2.0", error: (code, message), id: null)` sent by the POST error
branch; `text` a plain-text body sent by `res.send`; `handled t` delegation
to `transports[sid].handleRequest`. -/
inductive HttpBody
  | jsonEnvelope (code : Int) (message : String)
  | text (s : String)
  | handled (transport : Nat)
deriving DecidableEq, Repr

/-- Whether a body is the JSON error envelope. -/
def HttpBody.isEnvelope : HttpBody → Bool
  | .jsonEnvelope _ _ => true
  | _ => false

/-- An HTTP response: status code and body. -/
structure HttpResponse where
  status : Nat
  body : HttpBody
deriving DecidableEq, Repr

/-- The POST error response (src/index.js lines 254-262). -/
def badRequestEnvelope : HttpResponse :=
  ⟨400, .jsonEnvelope (-32000) "Bad Request: No valid session ID provided"⟩

/-- The GET/DELETE error response (src/index.js lines 271, 281):
`res.status(400).send('Invalid or missing session ID')` — a plain string
body, not the JSON envelope. -/
def invalidSessionText : HttpResponse :=
  ⟨400, .text "Invalid or missing session ID"⟩

/-- The POST /mcp route (src/index.js lines 228-266).  `hdr` is the
`mcp-session-id` header (absent or possibly empty, both falsy in the JS
conditions); on the initialization path a new transport `fresh` is created
and bound to the generated id `freshSid` by the session-ready callback
during request handling. -/
def handlePost (st : ServerState) (hdr : Option String) (isInitReq : Bool)
    (fresh : Nat) (freshSid : String) : HttpResponse × ServerState :=
  if truthy hdr then
    match st.transports (hdr.getD "") with
    | some t => (⟨200, .handled t⟩, st)
    | none => (badRequestEnvelope, st)
  else if isInitReq then
    (⟨200, .handled fresh⟩,
     ⟨transportsUpdate st.transports freshSid (some fresh), st.sessionStore⟩)
  else (badRequestEnvelope, st)

/-- The GET /mcp and DELETE /mcp routes (src/index.js lines 268-286), which
share one body: missing/falsy header or unknown session id gives the
plain-text 400, otherwise the request is delegated to the session's
transport. -/
def handleGetOrDelete (st : ServerState) (hdr : Option String) :
    HttpResponse × ServerState :=
  if truthy hdr then
    match st.transports (hdr.getD "") with
    | some t => (⟨200, .handled t⟩, st)
    | none => (invalidSessionText, st)
  else (invalidSessionText, st)

/-- Counterexample to C5 as stated: a GET with a missing session header is
answered with HTTP 400 whose body is the plain string
"Invalid or missing session ID" — not the fixed JSON error envelope the
claim asserts for GET/DELETE — though the state is indeed unchanged. -/
theorem c5_counterexample :
    (handleGetOrDelete emptyServerState none).1.status = 400 ∧
    (handleGetOrDelete emptyServerState none).1.body
      = .text "Invalid or missing session ID" ∧
    (handleGetOrDelete emptyServerState none).1.body.isEnvelope = false ∧
    (handleGetOrDelete emptyServerState none).2 = emptyServerState :=
  ⟨rfl, rfl, rfl, rfl⟩

/-- Claim C5 as amended: a POST with an unknown (nonempty) session id, and
a POST carrying no session id whose body is not an initialization request,
are answered with HTTP 400 and the fixed JSON envelope (code -32000,
message "Bad Request: No valid session ID provided", id null); a GET or
DELETE with a missing or unknown session id is answered with HTTP 400 and
the plain-text body "Invalid or missing session ID" instead of the
envelope.  In every one of these cases the transport table and the session
store are returned unchanged: no session is created or destroyed. -/
theorem c5_error_envelopes (st : ServerState) (sid freshSid : String)
    (fresh : Nat) (isInitReq : Bool) :
    (sid ≠ "" → st.transports sid = none →
      handlePost st (some sid) isInitReq fresh freshSid
        = (badRequestEnvelope, st)) ∧
    (isInitReq = false →
      handlePost st none isInitReq fresh freshSid = (badRequestEnvelope, st)) ∧
    handleGetOrDelete st none = (invalidSessionText, st) ∧
    (st.transports sid = none →
      handleGetOrDelete st (some sid) = (invalidSessionText, st)) := by
  refine ⟨fun h1 h2 => ?_, fun h => ?_, ?_, fun h2 => ?_⟩
  · simp [handlePost, truthy, h1, h2]
  · simp [handlePost, truthy, h]
  · simp [handleGetOrDelete, truthy]
  · by_cases hs : sid = "" <;> simp [handleGetOrDelete, truthy, hs, h2]

/-- Witness for C5 (amended): on the empty state, an unknown-id POST (even
with an initialization body), a non-init POST without id, and GET/DELETE
with missing or unknown id all return their respective 400 responses and
leave the state untouched. -/
theorem c5_error_envelopes_witness :
    handlePost emptyServerState (some "zzz") true 7 "fresh-id"
      = (badRequestEnvelope, emptyServerState) ∧
    handlePost emptyServerState none false 7 "fresh-id"
      = (badRequestEnvelope, emptyServerState) ∧
    handleGetOrDelete emptyServerState none
      = (invalidSessionText, emptyServerState) ∧
    handleGetOrDelete emptyServerState (some "zzz")
      = (invalidSessionText, emptyServerState) := by
  have hT := c5_error_envelopes emptyServerState "zzz" "fresh-id" 7 true
  have hF := c5_error_envelopes emptyServerState "zzz" "fresh-id" 7 false
  exact ⟨hT.1 (by decide) rfl, hF.2.1 rfl, hF.2.2.1, hF.2.2.2 rfl⟩

/-- The backend's state of the single Jira issue an update addresses. -/
structure JIssue where
  summary : String
  description : Option String := none
  status : String
  assignee : Option String := none
  priority : Option String := none
  due_date : Option String := none
deriving DecidableEq, Repr

/-- One workflow transition as `listTransitions` returns it: its `id`, its
own `name`, and the target status name `to.name`. -/
structure JTransition where
  id : String
  name : String
  toName : String
deriving DecidableEq, Repr

/-- Backend state seen by `updateTask`: the addressed issue (absent means
the backend answers 404) and its available transitions. -/
structure JiraState where
  issue : Option JIssue
  transitions : List JTransition
deriving DecidableEq, Repr

/-- The `issueData.fields` object both updateTask variants build from the
truthy input attributes. -/
structure JFields where
  summary : Option String := none
  description : Option String := none
  assignee : Option String := none
  priority : Option String := none
  due_date : Option String := none
deriving DecidableEq, Repr

/-- `Object.keys(issueData.fields).length === 0`. -/
def JFields.isEmpty (f : JFields) : Bool :=
  f.summary.isNone && f.description.isNone && f.assignee.isNone &&
  f.priority.isNone && f.due_date.isNone

/-- Effect of `client.updateIssue` on the issue: present fields overwrite,
absent fields are untouched; the status is never part of `fields`. -/
def mergeFields (f : JFields) (i : JIssue) : JIssue :=
  { i with
    summary := f.summary.getD i.summary,
    description := match f.description with
      | some d => some d
      | none => i.description,
    assignee := match f.assignee with
      | some a => some a
      | none => i.assignee,
    priority := match f.priority with
      | some p => some p
      | none => i.priority,
    due_date := match f.due_date with
      | some d => some d
      | none => i.due_date }

/-- `client.updateIssue(taskId, issueData)`. -/
def updateIssueOp (st : JiraState) (f : JFields) : JiraState :=
  { st with issue := st.issue.map (mergeFields f) }

/-- `client.transitionIssue(taskId, (transition: (id)))`: the backend moves
the issue to the target status of the transition with that id. -/
def transitionIssueOp (st : JiraState) (tid : String) : JiraState :=
  match st.transitions.find? (fun t => t.id == tid) with
  | some t => { st with issue := st.issue.map fun i => { i with status := t.toName } }
  | none => st

/-- The normalized task `_formatIssue` produces (id and key collapsed to
the task key; created/updated timestamps are backend metadata, omitted). -/
structure JTask where
  key : String
  summary : String
  description : Option String
  status : String
  assignee : Option String
  priority : Option String
  due_date : Option String
deriving DecidableEq, Repr

/-- `_formatIssue` of the issue under the addressed key. -/
def formatIssue (key : String) (i : JIssue) : JTask :=
  ⟨key, i.summary, i.description, i.status, i.assignee, i.priority, i.due_date⟩

/-- Input of the zod-validated `updateTask` (UpdateJiraTaskSchema fields). -/
structure UpdateJiraTaskInput where
  summary : Option String := none
  description : Option String := none
  status : Option String := none
  assignee : Option String := none
  priority : Option String := none
  due_date : Option String := none
deriving DecidableEq, Repr

/-- `UpdateJiraTaskSchema.parse` succeeds: summary, when present, is
nonempty (`.min(1)`), and at least one field is provided (`.refine`). -/
def updateSchemaOk (d : UpdateJiraTaskInput) : Bool :=
  (match d.summary with
    | some s => decide (1 ≤ s.length)
    | none => true) &&
  (d.summary.isSome || d.description.isSome || d.status.isSome ||
   d.assignee.isSome || d.priority.isSome || d.due_date.isSome)

/-- `issueData.fields` as the zod updateTask builds it: each of the five
editable attributes is copied when truthy (`if (summary) ...`). -/
def buildFields (d : UpdateJiraTaskInput) : JFields :=
  { summary := if truthy d.summary then d.summary else none,
    description := if truthy d.description then d.description else none,
    assignee := if truthy d.assignee then d.assignee else none,
    priority := if truthy d.priority then d.priority else none,
    due_date := if truthy d.due_date then d.due_date else none }

/-- One `this.client` call made by an updateTask variant, in order. -/
inductive JiraServiceCall
  | updateIssue (taskId : String) (f : JFields)
  | listTransitions (taskId : String)
  | transitionIssue (taskId : String) (transitionId : String)
  | findIssue (taskId : String)
deriving DecidableEq, Repr

/-- Errors surfaced by the zod updateTask paths modelled here. -/
inductive JErr
  | validationFailed
  | notFound (taskId : String)
deriving DecidableEq, Repr

/-- Lower-casing of a string, character by character, modelling
JavaScript's `toLowerCase()` (defined over the character list so that it
evaluates by kernel reduction). -/
def strLower (s : String) : String := String.mk (s.data.map Char.toLower)

/-- The transition lookup of the zod updateTask:
`transitions.find(t => t.name.toLowerCase() === status.toLowerCase())` —
the transition's OWN name, compared case-insensitively. -/
def findTransitionByNameCI (ts : List JTransition) (status : String) :
    Option JTransition :=
  ts.find? fun t => strLower t.name == strLower status

/-- The final `getTask(taskId)` (findIssue and format, 404 when absent). -/
def getTaskOp (st : JiraState) (taskId : String) : Except JErr JTask :=
  match st.issue with
  | some i => .ok (formatIssue taskId i)
  | none => .error (.notFound taskId)

/-- The zod-validated `JiraService.updateTask` (unnamed jiraService.js, the
variant with UpdateJiraTaskSchema, lines 476-538): validate; build the
truthy fields; call `updateIssue` only when the fields object is nonempty;
when a status is given, list the transitions and apply the one whose own
name matches case-insensitively, otherwise only log the skip; finally
re-fetch the task.  Returns the result, the new backend state, and the
ordered call trace. -/
def updateTaskZod (st : JiraState) (taskId : String) (d : UpdateJiraTaskInput) :
    Except JErr JTask × JiraState × List JiraServiceCall :=
  if updateSchemaOk d then
    let f := buildFields d
    let st1 := if f.isEmpty then st else updateIssueOp st f
    let tr1 : List JiraServiceCall :=
      if f.isEmpty then [] else [.updateIssue taskId f]
    if truthy d.status then
      let s := d.status.getD ""
      let tr2 := tr1 ++ [.listTransitions taskId]
      match findTransitionByNameCI st1.transitions s with
      | some t =>
          let st2 := transitionIssueOp st1 t.id
          (getTaskOp st2 taskId, st2,
           tr2 ++ [.transitionIssue taskId t.id, .findIssue taskId])
      | none =>
          (getTaskOp st1 taskId, st1, tr2 ++ [.findIssue taskId])
    else
      (getTaskOp st1 taskId, st1, tr1 ++ [.findIssue taskId])
  else (.error .validationFailed, st, [])

/-- Result echo of the simple updateTask:
`(id: taskKey, summary, description, status)`. -/
structure SimpleUpdateResult where
  id : String
  summary : Option String
  description : Option String
  status : Option String
deriving DecidableEq, Repr

/-- The simple-variant `JiraService.updateTask` (unnamed jiraService.js,
lines 721-742): always calls `updateIssue` with the truthy-filtered
summary/description fields, then, when a status is given, matches a
transition by `t.to.name === status` — the TARGET name, case-sensitively —
and returns the echo object whether or not a transition was applied. -/
def updateTaskSimple (st : JiraState) (taskKey : String)
    (summary description status : Option String) :
    SimpleUpdateResult × JiraState × List JiraServiceCall :=
  let f : JFields :=
    { summary := if truthy summary then summary else none,
      description := if truthy description then description else none }
  let st1 := updateIssueOp st f
  let tr1 : List JiraServiceCall := [.updateIssue taskKey f]
  if truthy status then
    let s := status.getD ""
    let tr2 := tr1 ++ [.listTransitions taskKey]
    match st1.transitions.find? (fun t => t.toName == s) with
    | some t =>
        (⟨taskKey, summary, description, status⟩, transitionIssueOp st1 t.id,
         tr2 ++ [.transitionIssue taskKey t.id])
    | none => (⟨taskKey, summary, description, status⟩, st1, tr2)
  else (⟨taskKey, summary, description, status⟩, st1, tr1)

/-- Whether a trace contains a `transitionIssue` call. -/
def hasTransitionCall (l : List JiraServiceCall) : Bool :=
  l.any fun c => match c with
    | .transitionIssue _ _ => true
    | _ => false

/-- Whether a trace contains an `updateIssue` call. -/
def hasUpdateIssueCall (l : List JiraServiceCall) : Bool :=
  l.any fun c => match c with
    | .updateIssue _ _ => true
    | _ => false

/-- Transitions are not touched by `updateIssue`. -/
theorem updateIssueOp_transitions (st : JiraState) (f : JFields) :
    (updateIssueOp st f).transitions = st.transitions := rfl

/-- The status field is never part of `issueData.fields`, so a field merge
leaves it unchanged. -/
theorem mergeFields_status (f : JFields) (i : JIssue) :
    (mergeFields f i).status = i.status := rfl

/-- Merging an empty fields object changes nothing. -/
theorem mergeFields_empty (f : JFields) (i : JIssue) (h : f.isEmpty = true) :
    mergeFields f i = i := by
  rcases f with ⟨s, d, a, p, dd⟩
  cases s <;> cases d <;> cases a <;> cases p <;> cases dd <;>
    simp_all [JFields.isEmpty, mergeFields]

/-- The issue after an `updateIssue` call is the field-merged issue. -/
theorem updateIssueOp_issue (st : JiraState) (f : JFields) (i : JIssue)
    (hi : st.issue = some i) :
    (updateIssueOp st f).issue = some (mergeFields f i) := by
  simp [updateIssueOp, hi]

/-- Issue of the C8/C10 concrete runs: status "To Do". -/
def i0 : JIssue := { summary := "Fix build", status := "To Do" }

/-- Backend state of the C8/C10 concrete runs: one available transition
whose own name is "Finish" and whose target status name is "Done". -/
def st0 : JiraState := ⟨some i0, [⟨"5", "Finish", "Done"⟩]⟩

/-- Status-only update input requesting status "done". -/
def d0 : UpdateJiraTaskInput := { status := some "done" }

/-- Counterexample to C8 as stated.  The backend offers a transition whose
TARGET name "Done" matches the requested status "done" case-insensitively,
yet the zod updateTask applies no transition (it matches on the
transition's own name, "Finish") and leaves the status at "To Do"; the
simple updateTask also applies none (it matches the target name
case-SENSITIVELY, and "Done" is not "done"). -/
theorem c8_counterexample :
    (strLower "Done" == strLower "done") = true ∧
    (updateTaskZod st0 "T-1" d0).2.2
      = [.listTransitions "T-1", .findIssue "T-1"] ∧
    hasTransitionCall (updateTaskZod st0 "T-1" d0).2.2 = false ∧
    (updateTaskZod st0 "T-1" d0).2.1.issue = some i0 ∧
    (updateTaskSimple st0 "T-1" none none (some "done")).2.2
      = [.updateIssue "T-1" {}, .listTransitions "T-1"] ∧
    hasTransitionCall
        (updateTaskSimple st0 "T-1" none none (some "done")).2.2 = false := by
  refine ⟨?_, ?_, ?_, ?_, ?_, ?_⟩ <;> decide

/-- Claim C8 as amended.  The update proceeds in two backend steps in
order: field edits (when any field is truthy) via one `updateIssue` call,
then the transition enumeration.  The zod variant selects the transition
whose OWN name matches the requested status case-insensitively (not the
target name, as the claim said); the simple variant selects the transition
whose target name matches case-SENSITIVELY.  In both, when no transition
matches, the operation still returns success with the field edits applied
and the status unchanged (the skip is only logged): no `transitionIssue`
call appears in the trace. -/
theorem c8_transition_matching (st : JiraState) (tid s : String)
    (d : UpdateJiraTaskInput) (i : JIssue) (sm ds : Option String)
    (hok : updateSchemaOk d = true)
    (hst : d.status = some s) (hs : s ≠ "")
    (hi : st.issue = some i)
    (hnomatch : findTransitionByNameCI st.transitions s = none) :
    (updateTaskZod st tid d).1
      = .ok (formatIssue tid (mergeFields (buildFields d) i)) ∧
    (updateTaskZod st tid d).2.1.issue = some (mergeFields (buildFields d) i) ∧
    (mergeFields (buildFields d) i).status = i.status ∧
    (updateTaskZod st tid d).2.2
      = (if (buildFields d).isEmpty then [] else [.updateIssue tid (buildFields d)])
        ++ [.listTransitions tid, .findIssue tid] ∧
    (st.transitions.find? (fun t => t.toName == s) = none →
      (updateTaskSimple st tid sm ds (some s)).1 = ⟨tid, sm, ds, some s⟩ ∧
      hasTransitionCall (updateTaskSimple st tid sm ds (some s)).2.2 = false ∧
      ((updateTaskSimple st tid sm ds (some s)).2.1.issue.map JIssue.status)
        = some i.status) := by
  have hts : truthy d.status = true := by rw [hst]; simp [truthy, hs]
  have hsimple : st.transitions.find? (fun t => t.toName == s) = none →
      (updateTaskSimple st tid sm ds (some s)).1 = ⟨tid, sm, ds, some s⟩ ∧
      hasTransitionCall (updateTaskSimple st tid sm ds (some s)).2.2 = false ∧
      ((updateTaskSimple st tid sm ds (some s)).2.1.issue.map JIssue.status)
        = some i.status := by
    intro hfind
    refine ⟨?_, ?_, ?_⟩ <;>
      simp [updateTaskSimple, truthy, hs, updateIssueOp_transitions, hfind,
        hasTransitionCall, updateIssueOp_issue st _ i hi, mergeFields_status]
  by_cases hfe : (buildFields d).isEmpty = true
  · have hm : mergeFields (buildFields d) i = i := mergeFields_empty _ _ hfe
    refine ⟨?_, ?_, mergeFields_status _ _, ?_, hsimple⟩ <;>
      simp [updateTaskZod, hok, hts, hst, hfe, hnomatch, getTaskOp, hi, hm,
        truthy, hs]
  · have hfe' : (buildFields d).isEmpty = false := by
      cases h : (buildFields d).isEmpty
      · rfl
      · exact absurd h hfe
    refine ⟨?_, ?_, mergeFields_status _ _, ?_, hsimple⟩ <;>
      simp [updateTaskZod, hok, hts, hst, hfe', hnomatch, getTaskOp,
        updateIssueOp_transitions, updateIssueOp_issue st _ i hi, truthy, hs]

/-- Update input for the C8 witness: a summary edit plus the status
request "done". -/
def d8 : UpdateJiraTaskInput := { summary := some "New", status := some "done" }

/-- Witness for C8 (amended) on the concrete backend `st0`: no transition
name matches "done" case-insensitively and no target name matches it
case-sensitively, so both variants succeed, apply the field edits only,
and skip the transition. -/
theorem c8_transition_matching_witness :
    (updateTaskZod st0 "T-1" d8).1
      = .ok (formatIssue "T-1" (mergeFields (buildFields d8) i0)) ∧
    (updateTaskZod st0 "T-1" d8).2.1.issue
      = some (mergeFields (buildFields d8) i0) ∧
    (mergeFields (buildFields d8) i0).status = i0.status ∧
    (updateTaskZod st0 "T-1" d8).2.2
      = (if (buildFields d8).isEmpty then [] else [.updateIssue "T-1" (buildFields d8)])
        ++ [.listTransitions "T-1", .findIssue "T-1"] ∧
    (st0.transitions.find? (fun t => t.toName == "done") = none →
      (updateTaskSimple st0 "T-1" (some "S") none (some "done")).1
        = ⟨"T-1", some "S", none, some "done"⟩ ∧
      hasTransitionCall
        (updateTaskSimple st0 "T-1" (some "S") none (some "done")).2.2 = false ∧
      ((updateTaskSimple st0 "T-1" (some "S") none (some "done")).2.1.issue.map
          JIssue.status)
        = some i0.status) :=
  c8_transition_matching st0 "T-1" "done" d8 i0 (some "S") none
    (by decide) rfl (by decide) rfl (by decide)

/-- Whether the zod updateTask result is a success. -/
def updateResultOk : Except JErr JTask → Bool
  | .ok _ => true
  | .error _ => false

/-- A transition application can only change the status: every other field
of the issue is preserved, and the issue stays present. -/
theorem transitionIssueOp_frame (st : JiraState) (tid : String) (i : JIssue)
    (hi : st.issue = some i) :
    ((transitionIssueOp st tid).issue.map JIssue.summary = some i.summary) ∧
    ((transitionIssueOp st tid).issue.map JIssue.description = some i.description) ∧
    ((transitionIssueOp st tid).issue.map JIssue.assignee = some i.assignee) ∧
    ((transitionIssueOp st tid).issue.map JIssue.priority = some i.priority) ∧
    ((transitionIssueOp st tid).issue.map JIssue.due_date = some i.due_date) ∧
    (transitionIssueOp st tid).issue.isSome = true := by
  unfold transitionIssueOp
  cases h : st.transitions.find? (fun t => t.id == tid) <;> simp [hi]

/-- Claim C10: in the zod updateTask, a status-only input (all five
field-edit attributes absent) makes no `updateIssue` call at all: the trace
is exactly the transition enumeration, the transition when its name
matches, and the final task fetch; the operation succeeds and every
non-status field of the issue is left untouched. -/
theorem c10_status_only_update_frame (st : JiraState) (tid s : String)
    (i : JIssue) (d : UpdateJiraTaskInput)
    (hsm : d.summary = none) (hds : d.description = none)
    (has : d.assignee = none) (hpr : d.priority = none)
    (hdd : d.due_date = none) (hst : d.status = some s)
    (hs : s ≠ "") (hi : st.issue = some i) :
    hasUpdateIssueCall (updateTaskZod st tid d).2.2 = false ∧
    (updateTaskZod st tid d).2.2
      = .listTransitions tid ::
        (match findTransitionByNameCI st.transitions s with
         | some t => [.transitionIssue tid t.id, .findIssue tid]
         | none => [.findIssue tid]) ∧
    ((updateTaskZod st tid d).2.1.issue.map JIssue.summary) = some i.summary ∧
    ((updateTaskZod st tid d).2.1.issue.map JIssue.description) = some i.description ∧
    ((updateTaskZod st tid d).2.1.issue.map JIssue.assignee) = some i.assignee ∧
    ((updateTaskZod st tid d).2.1.issue.map JIssue.priority) = some i.priority ∧
    ((updateTaskZod st tid d).2.1.issue.map JIssue.due_date) = some i.due_date ∧
    updateResultOk (updateTaskZod st tid d).1 = true := by
  have hbf : buildFields d = {} := by
    simp [buildFields, hsm, hds, has, hpr, hdd, truthy]
  have hok : updateSchemaOk d = true := by
    simp [updateSchemaOk, hsm, hst]
  have hts : truthy d.status = true := by rw [hst]; simp [truthy, hs]
  cases hfind : findTransitionByNameCI st.transitions s with
  | some t =>
      obtain ⟨f1, f2, f3, f4, f5, f6⟩ := transitionIssueOp_frame st t.id i hi
      cases hiss : (transitionIssueOp st t.id).issue with
      | none => rw [hiss] at f6; simp at f6
      | some j =>
          rw [hiss] at f1 f2 f3 f4 f5
          simp only [Option.map_some'] at f1 f2 f3 f4 f5
          refine ⟨?_, ?_, ?_, ?_, ?_, ?_, ?_, ?_⟩ <;>
            simp [updateTaskZod, hok, hts, hst, hbf, JFields.isEmpty, hfind,
              getTaskOp, hiss, hasUpdateIssueCall, updateResultOk, truthy, hs,
              f1, f2, f3, f4, f5]
  | none =>
      refine ⟨?_, ?_, ?_, ?_, ?_, ?_, ?_, ?_⟩ <;>
        simp [updateTaskZod, hok, hts, hst, hbf, JFields.isEmpty, hfind,
          getTaskOp, hi, hasUpdateIssueCall, updateResultOk, truthy, hs]

/-- Witness for C10: the status-only input `d0` against the concrete
backend `st0` makes no updateIssue call, emits exactly the enumeration and
fetch, succeeds and preserves every non-status field. -/
theorem c10_status_only_update_frame_witness :
    hasUpdateIssueCall (updateTaskZod st0 "T-1" d0).2.2 = false ∧
    (updateTaskZod st0 "T-1" d0).2.2
      = .listTransitions "T-1" ::
        (match findTransitionByNameCI st0.transitions "done" with
         | some t => [.transitionIssue "T-1" t.id, .findIssue "T-1"]
         | none => [.findIssue "T-1"]) ∧
    ((updateTaskZod st0 "T-1" d0).2.1.issue.map JIssue.summary)
      = some i0.summary ∧
    ((updateTaskZod st0 "T-1" d0).2.1.issue.map JIssue.description)
      = some i0.description ∧
    ((updateTaskZod st0 "T-1" d0).2.1.issue.map JIssue.assignee)
      = some i0.assignee ∧
    ((updateTaskZod st0 "T-1" d0).2.1.issue.map JIssue.priority)
      = some i0.priority ∧
    ((updateTaskZod st0 "T-1" d0).2.1.issue.map JIssue.due_date)
      = some i0.due_date ∧
    updateResultOk (updateTaskZod st0 "T-1" d0).1 = true :=
  c10_status_only_update_frame st0 "T-1" "done" i0 d0
    rfl rfl rfl rfl rfl rfl (by decide) rfl

/-- The dummy meeting the mock CalendarService.createMeeting returns
(src/services/calendarService.js lines 19-22): id "new-meeting" and the
inputs echoed, unconditionally. -/
structure MockMeeting where
  id : String
  summary : String
  description : Option String
  startDateTime : String
  endDateTime : String
  attendees : Option (List String)
deriving DecidableEq, Repr

/-- `createMeeting` of the mock CalendarService wired into src/index.js. -/
def mockCreateMeeting (summary : String) (description : Option String)
    (startDateTime endDateTime : String) (attendees : Option (List String)) :
    MockMeeting :=
  ⟨"new-meeting", summary, description, startDateTime, endDateTime, attendees⟩

/-- The `create-calendar-meeting` handler exactly as wired in src/index.js
(lines 179-184 composed with src/services/calendarService.js): credential
check, then construct the service and call its `createMeeting`, which
returns the dummy meeting with no validation of the datetimes at all. -/
def createCalendarMeetingWired (store : SessionStore) (sid : Option String)
    (summary : String) (description : Option String)
    (startDateTime endDateTime : String) (attendees : Option (List String)) :
    Except MCPError MockMeeting × List AdapterCall :=
  match (store (sidKey sid)).bind SessionCreds.calendar with
  | none => (.error calendarLoginRequired, [])
  | some creds =>
    (.ok (mockCreateMeeting summary description startDateTime endDateTime attendees),
     [.calConstruct creds,
      .calCreateMeeting creds summary description startDateTime endDateTime attendees])

/-- Meeting-creation input of the zod CalendarService's MeetingSchema
(unnamed calendarService.js, lines 9-20).  The ISO datetime strings
`start`/`end` are modelled by their parsed timestamp values, since the
refinement compares `new Date(data.end) > new Date(data.start)`; the
string-format and attendee-email checks of the schema are abstracted away
(they only make validation stricter). -/
structure MeetingData where
  summary : String
  description : Option String := none
  startTime : Int
  endTime : Int
  attendees : Option (List String) := none
  location : Option String := none
  conferenceData : Bool := false
deriving DecidableEq, Repr

/-- `MeetingSchema.parse` succeeds: summary nonempty (`.min(1)`) and end
strictly after start (`.refine`). -/
def meetingSchemaOk (m : MeetingData) : Bool :=
  decide (1 ≤ m.summary.length) && decide (m.startTime < m.endTime)

/-- Errors surfaced by the zod CalendarService.createMeeting.  Read off the
source: every failure of its try-block reaches a catch whose first test is
`error instanceof ZodError`, but `ZodError` is never imported in that file
(only `z` is), so evaluating the test itself raises a ReferenceError.  Both
the failed `_checkAuth()` and a schema rejection therefore surface as
ReferenceErrors rather than the intended AuthenticationError or
ValidationError; the two constructors record the underlying cause. -/
inductive CalZErr
  | referenceErrorAuth
  | referenceErrorValidation
deriving DecidableEq, Repr

/-- The one backend call the zod createMeeting can make. -/
inductive CalZCall
  | eventsInsert (m : MeetingData)
deriving DecidableEq, Repr

/-- The zod CalendarService.createMeeting (unnamed calendarService.js,
lines 202-259): `_checkAuth()` first, then `MeetingSchema.parse`, then the
single backend call `calendar.events.insert`.  `authed` models the
presence of `oAuth2Client.credentials.access_token`; `insertFmt` the
formatted result of the insert. -/
def createMeetingZ (authed : Bool) (insertFmt : MeetingData → String)
    (m : MeetingData) : Except CalZErr String × List CalZCall :=
  if !authed then (.error .referenceErrorAuth, [])
  else if meetingSchemaOk m then (.ok (insertFmt m), [.eventsInsert m])
  else (.error .referenceErrorValidation, [])

/-- Counterexample to C7 as stated: on a session logged in to Calendar,
the wired create-calendar-meeting handler invoked with equal start and end
datetime strings (end not strictly after start) does not fail with
ValidationFailed before the adapter is constructed — it constructs the
Calendar adapter, calls its createMeeting method, and returns the dummy
created meeting. -/
theorem c7_counterexample :
    createCalendarMeetingWired storeAllW (some "s1") "standup" none
        "2025-01-01T10:00:00Z" "2025-01-01T10:00:00Z" none
      = (.ok (mockCreateMeeting "standup" none "2025-01-01T10:00:00Z"
            "2025-01-01T10:00:00Z" none),
         [.calConstruct ccW,
          .calCreateMeeting ccW "standup" none "2025-01-01T10:00:00Z"
            "2025-01-01T10:00:00Z" none]) := by
  simp [createCalendarMeetingWired, storeAllW, sidKey]

/-- Claim C7 as amended: the wired create-calendar-meeting path performs no
end-after-start validation — for every logged-in session it constructs the
adapter and calls createMeeting, which always succeeds.  Only the unwired
zod CalendarService variant rejects `end <= start`, and it does so inside
the already-constructed service: when the schema refinement fails the call
returns an error without issuing any backend `events.insert` call (the
surfaced error is in fact a ReferenceError, `ZodError` being unbound in
its catch, not ValidationFailed); an unauthenticated service also fails
before any backend call. -/
theorem c7_no_validation_in_wired_handler (store : SessionStore)
    (sid : Option String) (cc : CalendarCreds) (summary : String)
    (description : Option String) (sdt edt : String)
    (att : Option (List String)) (insertFmt : MeetingData → String)
    (m : MeetingData)
    (hcc : (store (sidKey sid)).bind SessionCreds.calendar = some cc)
    (hle : m.endTime ≤ m.startTime) :
    createCalendarMeetingWired store sid summary description sdt edt att
      = (.ok (mockCreateMeeting summary description sdt edt att),
         [.calConstruct cc,
          .calCreateMeeting cc summary description sdt edt att]) ∧
    createMeetingZ true insertFmt m = (.error .referenceErrorValidation, []) ∧
    createMeetingZ false insertFmt m = (.error .referenceErrorAuth, []) := by
  refine ⟨?_, ?_, ?_⟩
  · simp [createCalendarMeetingWired, hcc]
  · have h2 : ¬ (m.startTime < m.endTime) := by omega
    simp [createMeetingZ, meetingSchemaOk, h2]
  · simp [createMeetingZ]

/-- A meeting input whose end equals its start. -/
def mW : MeetingData := { summary := "standup", startTime := 10, endTime := 10 }

/-- Witness for C7 (amended) at session "s1" and the degenerate meeting
`mW`: the wired handler succeeds and calls the adapter; the zod variant
rejects with no insert call; the unauthenticated zod variant fails too. -/
theorem c7_no_validation_in_wired_handler_witness :
    createCalendarMeetingWired storeAllW (some "s1") "sync" none "a" "a" none
      = (.ok (mockCreateMeeting "sync" none "a" "a" none),
         [.calConstruct ccW, .calCreateMeeting ccW "sync" none "a" "a" none]) ∧
    createMeetingZ true (fun _ => "evt") mW
      = (.error .referenceErrorValidation, []) ∧
    createMeetingZ false (fun _ => "evt") mW
      = (.error .referenceErrorAuth, []) :=
  c7_no_validation_in_wired_handler storeAllW (some "s1") ccW "sync" none
    "a" "a" none (fun _ => "evt") mW (by simp [storeAllW, sidKey]) (by decide)
